import Mathlib

/-!
Verification of the Claude Code environment-setup utility (setup.py).

The program is embedded shallowly: file I/O is modelled by an explicit
file state carrying the file content together with flags saying whether
each of the performed operations (touch, read, open-for-append/write)
raises an exception; the network call of the credential verifier is
modelled by an oracle value describing the HTTP outcome; the interactive
flow of main is modelled as a function of the list of console input
lines, a verifier oracle and a persistence oracle, returning the list of
persistence-writer invocations it performs.
-/

namespace Setup

/-! ### Python substring containment (the `in` operator on strings) -/

/-- Boolean prefix test on character lists (mirrors Python comparing a
candidate substring against the start of a suffix). -/
def listPrefixB : List Char → List Char → Bool
  | [], _ => true
  | _ :: _, [] => false
  | a :: as, b :: bs => a == b && listPrefixB as bs

/-- Boolean substring containment on character lists: some suffix of `l`
starts with `pat`.  This is Python's `pat in l`. -/
def listContains (pat : List Char) : List Char → Bool
  | [] => listPrefixB pat []
  | c :: t => listPrefixB pat (c :: t) || listContains pat t

/-- Number of starting positions at which `pat` occurs in `l`
(occurrences may overlap). -/
def countOcc (pat : List Char) : List Char → Nat
  | [] => if listPrefixB pat [] then 1 else 0
  | c :: t => (if listPrefixB pat (c :: t) then 1 else 0) + countOcc pat t

/-- Python's substring test `pat in content` on strings. -/
def containsStr (content pat : String) : Bool :=
  listContains pat.toList content.toList

/-- Number of (possibly overlapping) occurrences of `pat` in `content`. -/
def countOccStr (content pat : String) : Nat :=
  countOcc pat.toList content.toList

/-! ### Python string helpers used by the source (`.lower()`, `.strip()`) -/

/-- Python `str.lower()`. -/
def pyLower (s : String) : String := ⟨s.toList.map Char.toLower⟩

/-- Python `str.strip()`: remove leading and trailing whitespace. -/
def pyStrip (s : String) : String :=
  ⟨((s.toList.dropWhile Char.isWhitespace).reverse.dropWhile Char.isWhitespace).reverse⟩

/-! ### Platform detector: `get_shell_rc_file` -/

/-- Result of `get_shell_rc_file`: a shell-profile path, the Windows
sentinel (Python `None`), or the raised `OSError` for any other OS. -/
inductive RCResult where
  | path (p : String)
  | windowsSentinel
  | unsupported (msg : String)
deriving DecidableEq

/-- Embedding of `get_shell_rc_file`.  `systemRaw` stands for
`platform.system()` and `shellEnv` for `os.environ.get("SHELL", "")`;
the source lowercases both before comparing, and tests shell membership
with Python's substring operator. -/
def get_shell_rc_file (systemRaw shellEnv : String) : RCResult :=
  if pyLower systemRaw = "darwin" then
    if containsStr (pyLower shellEnv) "zsh" then .path "~/.zprofile"
    else .path "~/.bash_profile"
  else if pyLower systemRaw = "linux" then
    if containsStr (pyLower shellEnv) "zsh" then .path "~/.zshrc"
    else .path "~/.bashrc"
  else if pyLower systemRaw = "windows" then .windowsSentinel
  else .unsupported ("Unsupported operating system: " ++ pyLower systemRaw)

/-! ### Persistence writer: `append_to_file`, `set_env_var_on_unix` -/

/-- The one-time header comment written by `append_to_file`. -/
def HEADER : String := "# Claude Code Configuration"

/-- State of the shell-profile file for one `append_to_file` call:
its current content (empty for a freshly created file) together with
flags saying whether each I/O operation the call performs
(`Path.touch`, the read, the open-for-append/write) raises. -/
structure FileOps where
  touchErr : Bool
  readErr : Bool
  writeErr : Bool
  content : String
deriving DecidableEq

/-- Embedding of `append_to_file`: touch the file, read its content,
append `line` (preceded once by the header comment when the header is
absent) unless `line` already occurs in the content as a substring;
every raised exception is caught and turned into a `false` result.
Returns the reported flag and the resulting file content. -/
def append_to_file (fs : FileOps) (line : String) : Bool × String :=
  if fs.touchErr then (false, fs.content)
  else if fs.readErr then (false, fs.content)
  else if containsStr fs.content line then (false, fs.content)
  else if fs.writeErr then (false, fs.content)
  else if containsStr fs.content HEADER then
    (true, fs.content ++ line ++ "\n")
  else
    (true, fs.content ++ "\n" ++ HEADER ++ "\n" ++ line ++ "\n")

/-- The export line built by `set_env_var_on_unix`. -/
def exportLine (varName value : String) : String :=
  "export " ++ varName ++ "=\"" ++ value ++ "\""

/-- Embedding of `set_env_var_on_unix`.  The `Except` layer models the
`OSError` that `get_shell_rc_file` may raise (it is not caught here);
the payload is the returned flag together with the resulting content of
the profile file.  Note the source returns `True` on both branches of
`was_added`. -/
def set_env_var_on_unix (systemRaw shellEnv : String) (fs : FileOps)
    (varName value : String) : Except String (Bool × String) :=
  match get_shell_rc_file systemRaw shellEnv with
  | .unsupported msg => .error msg
  | .windowsSentinel => .ok (false, fs.content)
  | .path _ =>
    let r := append_to_file fs (exportLine varName value)
    .ok (true, r.2)

/-! ### Credential verifier: `verify_api_key` -/

/-- JSON values as decoded by `json.loads`. -/
inductive Json where
  | null
  | bool (b : Bool)
  | num (n : Int)
  | str (s : String)
  | arr (elems : List Json)
  | obj (fields : List (String × Json))

/-- Python truthiness of a decoded JSON value. -/
def Json.truthy : Json → Bool
  | .null => false
  | .bool b => b
  | .num n => n != 0
  | .str s => s != ""
  | .arr es => !es.isEmpty
  | .obj fs => !fs.isEmpty

/-- `isinstance(·, dict)`. -/
def Json.isObj : Json → Bool
  | .obj _ => true
  | _ => false

/-- `isinstance(·, list)`. -/
def Json.isArr : Json → Bool
  | .arr _ => true
  | _ => false

/-- `len(·)` for a decoded JSON sequence. -/
def Json.arrLen : Json → Nat
  | .arr es => es.length
  | _ => 0

/-- Dictionary lookup `d[k]` as an `Option`. -/
def Json.getKey : Json → String → Option Json
  | .obj fs, k => fs.lookup k
  | _, _ => none

/-- Python `k in d` for a dict. -/
def Json.hasKey (j : Json) (k : String) : Bool := (j.getKey k).isSome

/-- Outcome of the HTTP GET performed by the verifier: a response whose
JSON body decodes, a response whose body fails to decode, a raised
`urllib.error.HTTPError`, or any other exception (network error,
timeout). -/
inductive HTTPOutcome where
  | success (status : Nat) (body : Json)
  | successBadJson (status : Nat)
  | httpError (code : Nat) (reason : String)
  | netError (msg : String)

/-- The `if`/`elif` chain run by `verify_api_key` on a decoded status-200
body.  Note the first branch captures every truthy dict containing a
`"data"` key and yields `True` only when that field is a non-empty list;
such a dict never reaches the later `elif` branches. -/
def classify200 (data : Json) : Bool :=
  if data.truthy && data.isObj && data.hasKey "data" then
    match data.getKey "data" with
    | some v => v.isArr && decide (0 < v.arrLen)
    | none => false
  else if data.truthy && data.isArr && decide (0 < data.arrLen) then true
  else if data.truthy && data.isObj then true
  else false

/-- Embedding of `verify_api_key`: the result flag together with the
number of network requests performed (0 or 1). -/
def verify_api_key (net : HTTPOutcome) (api_key : String) : Bool × Nat :=
  if api_key = "" then (false, 0)
  else
    match net with
    | .success status body =>
      if status = 200 then (classify200 body, 1) else (false, 1)
    | .successBadJson _ => (false, 1)
    | .httpError _ _ => (false, 1)
    | .netError _ => (false, 1)

/-! ### Header-insertion accounting for sequences of writer calls -/

/-- One planned `append_to_file` call against the shared profile file:
the line to append and the I/O failure flags of that call. -/
structure CallSpec where
  touchErr : Bool
  readErr : Bool
  writeErr : Bool
  line : String
deriving DecidableEq

/-- Run one planned call on the current file content. -/
def stepCall (c : String) (call : CallSpec) : Bool × String :=
  append_to_file ⟨call.touchErr, call.readErr, call.writeErr, c⟩ call.line

/-- Whether the call executes the source's header-writing branch: no
exception is raised, the line is absent, and the header comment is not
yet a substring of the content. -/
def wroteHeaderCall (c : String) (call : CallSpec) : Bool :=
  !call.touchErr && !call.readErr && !containsStr c call.line &&
    !call.writeErr && !containsStr c HEADER

/-- Number of header-comment insertions performed by a sequence of
writer calls against the same file, starting from content `c`. -/
def headerInsertions : String → List CallSpec → Nat
  | _, [] => 0
  | c, call :: rest =>
    (if wroteHeaderCall c call then 1 else 0) +
      headerInsertions (stepCall c call).2 rest

/-- `append_to_file` on a file whose I/O operations all succeed. -/
def append1 (c line : String) : Bool × String :=
  append_to_file ⟨false, false, false, c⟩ line

/-! ### Interactive flow controller: `main` -/

/-- Parsing of one `prompt_yes_no` response line from the console. -/
def promptYesNo (response : String) (dflt : Bool) : Bool :=
  if pyLower (pyStrip response) = "" then dflt
  else pyLower (pyStrip response) = "y" || pyLower (pyStrip response) = "yes"

/-- Outcome of `main`'s credential retry loop.  `eof` models `input()`
raising `EOFError` on exhausted console input (caught only by the
top-level wrapper); the two exit cases record the remaining input. -/
inductive LoopOutcome where
  | eof
  | exitEmptyKey (rest : List String)
  | exitDeclined (rest : List String)
  | gotKey (key : String) (rest : List String)
deriving DecidableEq

/-- The `while True` loop of `main`: prompt for the key (stripped by
`prompt_for_var`), exit when it is empty, verify it, and on failure ask
whether to retry; answering no exits the flow. -/
def keyLoop (verifier : String → Bool) : List String → LoopOutcome
  | [] => .eof
  | s :: rest =>
    if pyStrip s = "" then .exitEmptyKey rest
    else if verifier (pyStrip s) then .gotKey (pyStrip s) rest
    else
      match rest with
      | [] => .eof
      | r :: rest2 =>
        if promptYesNo r true then keyLoop verifier rest2
        else .exitDeclined rest2

/-- Default primary model identifier offered by the routing prompt. -/
def DEFAULT_PRIMARY : String := "anthropic.claude-sonnet-4-5@20250929"

/-- Default small/fast model identifier offered by the routing prompt. -/
def DEFAULT_SMALL : String := "anthropic.claude-3-5-haiku@20241022"

/-- Base URL persisted in the direct-proxy configuration. -/
def BASE_URL : String := "https://api.getunbound.ai"

/-- Routing configuration chosen by `prompt_vertex_configuration`. -/
inductive VConfig where
  | direct
  | vertex (model smallModel : String)
deriving DecidableEq

/-- Embedding of `prompt_vertex_configuration` over the remaining
console input; `none` models `EOFError` on exhausted input. -/
def prompt_vertex_configuration : List String → Option (VConfig × List String)
  | [] => none
  | a :: rest =>
    if promptYesNo a false = false then some (.direct, rest)
    else
      match rest with
      | [] => none
      | b :: rest2 =>
        if promptYesNo b true then some (.vertex DEFAULT_PRIMARY DEFAULT_SMALL, rest2)
        else
          match rest2 with
          | [] => none
          | p :: rest3 =>
            match rest3 with
            | [] => none
            | s :: rest4 =>
              some (.vertex
                (if pyStrip p = "" then DEFAULT_PRIMARY else pyStrip p)
                (if pyStrip s = "" then DEFAULT_SMALL else pyStrip s), rest4)

/-- Observable outcome of one run of `main`: the persistence-writer
invocations performed (variable name, value) in order, the console input
left unconsumed, and whether the run aborted on `EOFError`. -/
structure RunResult where
  writes : List (String × String)
  leftover : List String
  crashed : Bool
deriving DecidableEq

/-- Embedding of `main`.  `verifier` gives the result of
`verify_api_key` for a candidate key, `persist` the success flag of
`set_env_var_forever` for a (name, value) pair, and `stdin` the console
input lines. -/
def main (verifier : String → Bool) (persist : String → String → Bool)
    (stdin : List String) : RunResult :=
  match keyLoop verifier stdin with
  | .eof => ⟨[], [], true⟩
  | .exitEmptyKey rest => ⟨[], rest, false⟩
  | .exitDeclined rest => ⟨[], rest, false⟩
  | .gotKey key rest =>
    if persist "UNBOUND_API_KEY" key = false then
      ⟨[("UNBOUND_API_KEY", key)], rest, false⟩
    else
      match prompt_vertex_configuration rest with
      | none => ⟨[("UNBOUND_API_KEY", key)], [], true⟩
      | some (.direct, rest2) =>
        ⟨[("UNBOUND_API_KEY", key), ("ANTHROPIC_BASE_URL", BASE_URL)], rest2, false⟩
      | some (.vertex m sm, rest2) =>
        ⟨[("UNBOUND_API_KEY", key), ("ANTHROPIC_MODEL", m),
          ("ANTHROPIC_SMALL_FAST_MODEL", sm)], rest2, false⟩

/-! ### Lemmas about substring containment -/

theorem listPrefixB_append (pat l ys : List Char)
    (h : listPrefixB pat l = true) : listPrefixB pat (l ++ ys) = true := by
  induction pat generalizing l with
  | nil => simp [listPrefixB]
  | cons a as ih =>
    cases l with
    | nil => simp [listPrefixB] at h
    | cons b bs =>
      simp only [listPrefixB, Bool.and_eq_true] at h
      simp only [List.cons_append, listPrefixB, Bool.and_eq_true]
      exact ⟨h.1, ih bs h.2⟩

theorem listPrefixB_self_append (pat ys : List Char) :
    listPrefixB pat (pat ++ ys) = true := by
  induction pat with
  | nil => simp [listPrefixB]
  | cons a as ih => simp [listPrefixB, ih]

theorem listContains_append_right (pat xs ys : List Char)
    (h : listContains pat xs = true) : listContains pat (xs ++ ys) = true := by
  induction xs with
  | nil =>
    cases pat with
    | nil => cases ys <;> simp [listContains, listPrefixB]
    | cons a as => simp [listContains, listPrefixB] at h
  | cons c t ih =>
    simp only [listContains, Bool.or_eq_true] at h
    rcases h with h | h
    · simp only [List.cons_append, listContains, Bool.or_eq_true]
      exact Or.inl (listPrefixB_append _ _ _ h)
    · simp only [List.cons_append, listContains, Bool.or_eq_true]
      exact Or.inr (ih h)

theorem listContains_here (pat ys : List Char) :
    listContains pat (pat ++ ys) = true := by
  cases pat with
  | nil => cases ys <;> simp [listContains, listPrefixB]
  | cons a as =>
    simp only [List.cons_append, listContains, Bool.or_eq_true]
    exact Or.inl (listPrefixB_self_append _ _)

theorem listContains_append_left (pat : List Char) (xs : List Char) :
    ∀ ys, listContains pat ys = true → listContains pat (xs ++ ys) = true := by
  induction xs with
  | nil => intro ys h; simpa using h
  | cons c t ih =>
    intro ys h
    simp only [List.cons_append, listContains, Bool.or_eq_true]
    exact Or.inr (ih ys h)

theorem countOcc_pos_of_contains (pat l : List Char)
    (h : listContains pat l = true) : 1 ≤ countOcc pat l := by
  induction l with
  | nil =>
    simp only [listContains] at h
    simp [countOcc, h]
  | cons c t ih =>
    simp only [listContains, Bool.or_eq_true] at h
    rcases h with h | h
    · simp [countOcc, h]
    · have := ih h
      simp only [countOcc]
      omega

theorem string_toList_append (a b : String) :
    (a ++ b).toList = a.toList ++ b.toList := rfl

theorem containsStr_append_right (a b pat : String)
    (h : containsStr a pat = true) : containsStr (a ++ b) pat = true := by
  unfold containsStr at h ⊢
  rw [string_toList_append]
  exact listContains_append_right _ _ _ h

theorem containsStr_append_left (a b pat : String)
    (h : containsStr b pat = true) : containsStr (a ++ b) pat = true := by
  unfold containsStr at h ⊢
  rw [string_toList_append]
  exact listContains_append_left _ _ _ h

theorem containsStr_middle (a pat b : String) :
    containsStr (a ++ pat ++ b) pat = true := by
  unfold containsStr
  rw [string_toList_append, string_toList_append, List.append_assoc]
  exact listContains_append_left _ _ _ (listContains_here _ _)

theorem containsStr_refl (pat : String) : containsStr pat pat = true := by
  unfold containsStr
  have h := listContains_here pat.toList []
  simpa using h

theorem countOccStr_pos_of_contains (content pat : String)
    (h : containsStr content pat = true) : 1 ≤ countOccStr content pat :=
  countOcc_pos_of_contains _ _ h

/-! ### Lemmas about the header comment -/

theorem contains_header_of_inserted (c l : String) :
    containsStr (c ++ "\n" ++ HEADER ++ "\n" ++ l ++ "\n") HEADER = true := by
  have h1 : containsStr (c ++ "\n" ++ HEADER) HEADER = true :=
    containsStr_append_left _ _ _ (containsStr_refl _)
  have h2 := containsStr_append_right _ "\n" _ h1
  have h3 := containsStr_append_right _ l _ h2
  exact containsStr_append_right _ "\n" _ h3

theorem containsStr_header_mono (fs : FileOps) (line : String)
    (h : containsStr fs.content HEADER = true) :
    containsStr (append_to_file fs line).2 HEADER = true := by
  unfold append_to_file
  split_ifs with h1 h2 h3 h4 <;>
    first
      | exact h
      | exact containsStr_append_right _ _ _ (containsStr_append_right _ _ _ h)

theorem stepCall_snd_of_wroteHeader (c : String) (call : CallSpec)
    (h : wroteHeaderCall c call = true) :
    (stepCall c call).2 = c ++ "\n" ++ HEADER ++ "\n" ++ call.line ++ "\n" := by
  unfold wroteHeaderCall at h
  simp only [Bool.and_eq_true, Bool.not_eq_true'] at h
  obtain ⟨⟨⟨⟨h1, h2⟩, h3⟩, h4⟩, h5⟩ := h
  unfold stepCall append_to_file
  simp [h1, h2, h3, h4, h5]

theorem headerInsertions_zero_of_present (calls : List CallSpec) :
    ∀ c, containsStr c HEADER = true → headerInsertions c calls = 0 := by
  induction calls with
  | nil => intro c _; rfl
  | cons call rest ih =>
    intro c h
    have hw : wroteHeaderCall c call = false := by
      unfold wroteHeaderCall
      simp [h]
    have hnext : containsStr (stepCall c call).2 HEADER = true :=
      containsStr_header_mono ⟨call.touchErr, call.readErr, call.writeErr, c⟩ call.line h
    simp [headerInsertions, hw, ih _ hnext]

/-! ### Claim C5: the header comment is inserted at most once -/

/-- Claim C5: for every initial file content and every sequence of
persistence-writer calls against the same file, the header comment is
inserted at most once, and it is never inserted when it is already
present in the content as a substring. -/
theorem header_inserted_at_most_once (c : String) (calls : List CallSpec) :
    headerInsertions c calls ≤ 1 ∧
      (containsStr c HEADER = true → headerInsertions c calls = 0) := by
  constructor
  · induction calls generalizing c with
    | nil => simp [headerInsertions]
    | cons call rest ih =>
      by_cases hw : wroteHeaderCall c call = true
      · have hpresent : containsStr (stepCall c call).2 HEADER = true := by
          rw [stepCall_snd_of_wroteHeader c call hw]
          exact contains_header_of_inserted _ _
        have h0 := headerInsertions_zero_of_present rest _ hpresent
        simp [headerInsertions, hw, h0]
      · have hw' : wroteHeaderCall c call = false := by
          simpa using hw
        have hle := ih (stepCall c call).2
        simpa [headerInsertions, hw'] using hle
  · exact headerInsertions_zero_of_present calls c

/-- Witness for C5: a file already holding the header comment takes no
further header insertion. -/
theorem header_inserted_at_most_once_witness :
    containsStr "# Claude Code Configuration\n" HEADER = true ∧
      headerInsertions "# Claude Code Configuration\n"
        [⟨false, false, false, "export A=\"1\""⟩] = 0 :=
  ⟨by decide,
    (header_inserted_at_most_once "# Claude Code Configuration\n"
      [⟨false, false, false, "export A=\"1\""⟩]).2 (by decide)⟩

/-! ### Claim C4: appending the same export line twice -/

/-- Counterexample for C4 as stated: starting from a file whose content
is the export line built from name `A` and value `export A=` appended
after the header, the first call adds the line, but an occurrence of the
line then spans the boundary between the old content and the appended
text, so the line occurs twice in the file (not exactly once), while the
second call still reports it as already present. -/
theorem append_twice_two_occurrences :
    (append1 "# Claude Code Configuration\nexport A=\"" "export A=\"export A=\"").1
        = true ∧
      countOccStr
        (append1 "# Claude Code Configuration\nexport A=\"" "export A=\"export A=\"").2
        "export A=\"export A=\"" = 2 ∧
      (append1
        (append1 "# Claude Code Configuration\nexport A=\"" "export A=\"export A=\"").2
        "export A=\"export A=\"").1 = false := by
  refine ⟨by decide, by decide, by decide⟩

/-- Claim C4 (amended): for every file content not already containing
the export line, appending the line twice leaves the line present in the
file (at least one occurrence; an occurrence may span the boundary
between old content and appended text, so exactly one is not
guaranteed); the first call reports that it added the line, and the
second call appends nothing, leaves the file unchanged and reports that
the line already existed. -/
theorem append_twice_idempotent (content line : String)
    (h : containsStr content line = false) :
    (append1 content line).1 = true ∧
      containsStr (append1 content line).2 line = true ∧
      1 ≤ countOccStr (append1 content line).2 line ∧
      append1 (append1 content line).2 line = (false, (append1 content line).2) := by
  by_cases hh : containsStr content HEADER = true
  · have e : append1 content line = (true, content ++ line ++ "\n") := by
      unfold append1 append_to_file
      simp [h, hh]
    have hc : containsStr (append1 content line).2 line = true := by
      rw [e]
      exact containsStr_middle _ _ _
    refine ⟨by rw [e], hc, countOccStr_pos_of_contains _ _ hc, ?_⟩
    have hc2 : containsStr (content ++ line ++ "\n") line = true :=
      containsStr_middle _ _ _
    rw [e]
    unfold append1 append_to_file
    simp [hc2]
  · have hh' : containsStr content HEADER = false := by
      simpa using hh
    have e : append1 content line =
        (true, content ++ "\n" ++ HEADER ++ "\n" ++ line ++ "\n") := by
      unfold append1 append_to_file
      simp [h, hh']
    have hc : containsStr (append1 content line).2 line = true := by
      rw [e]
      exact containsStr_middle (content ++ "\n" ++ HEADER ++ "\n") line "\n"
    refine ⟨by rw [e], hc, countOccStr_pos_of_contains _ _ hc, ?_⟩
    have hc2 : containsStr (content ++ "\n" ++ HEADER ++ "\n" ++ line ++ "\n") line = true :=
      containsStr_middle (content ++ "\n" ++ HEADER ++ "\n") line "\n"
    rw [e]
    unfold append1 append_to_file
    simp [hc2]

/-- Witness for C4 (amended): appending an ordinary export line twice to
an initially empty file. -/
theorem append_twice_idempotent_witness :
    containsStr "" "export UNBOUND_API_KEY=\"abc\"" = false ∧
      (append1 "" "export UNBOUND_API_KEY=\"abc\"").1 = true ∧
      append1 (append1 "" "export UNBOUND_API_KEY=\"abc\"").2
          "export UNBOUND_API_KEY=\"abc\"" =
        (false, (append1 "" "export UNBOUND_API_KEY=\"abc\"").2) :=
  ⟨by decide,
    (append_twice_idempotent "" "export UNBOUND_API_KEY=\"abc\"" (by decide)).1,
    (append_twice_idempotent "" "export UNBOUND_API_KEY=\"abc\"" (by decide)).2.2.2⟩

/-! ### Claim C10: the presence check is a plain substring match -/

/-- Claim C10: whenever the line occurs anywhere in the file content as
a substring (also inside a longer line or a comment), a call whose touch
and read succeed appends nothing and reports that the line already
existed. -/
theorem presence_check_is_substring_match (fs : FileOps) (line : String)
    (ht : fs.touchErr = false) (hr : fs.readErr = false)
    (h : containsStr fs.content line = true) :
    append_to_file fs line = (false, fs.content) := by
  unfold append_to_file
  simp [ht, hr, h]

/-- Witness for C10: the export line occurs only inside a comment line,
yet the call reports it as already present and appends nothing. -/
theorem presence_check_is_substring_match_witness :
    append_to_file
        ⟨false, false, false, "# export FOO=\"1\" is disabled here\n"⟩
        "export FOO=\"1\"" =
      (false, "# export FOO=\"1\" is disabled here\n") :=
  presence_check_is_substring_match
    ⟨false, false, false, "# export FOO=\"1\" is disabled here\n"⟩
    "export FOO=\"1\"" (by decide) (by decide) (by decide)

/-! ### Claim C2: I/O failures while reading or appending -/

/-- Counterexample for C2 as stated: on a Linux system, when the read of
the profile file raises, the POSIX persistence variant
`set_env_var_on_unix` returns `True` (the caught failure makes
`append_to_file` return `False`, which the variant reports as "already
configured"), not `False`. -/
theorem unix_variant_reports_success_on_read_failure :
    set_env_var_on_unix "linux" "/bin/bash" ⟨false, true, false, ""⟩
        "UNBOUND_API_KEY" "abc" = .ok (true, "") := by
  rfl

/-- Claim C2 (amended): for every variable name and value, when any I/O
failure occurs while touching, reading or appending the shell profile
file, `append_to_file` catches the failure and returns `False` without
modifying the recorded content rather than propagating the exception;
the POSIX persistence variant `set_env_var_on_unix`, however, treats
that `False` as "already configured" and reports success (returns
`True`). -/
theorem append_io_failure_caught (systemRaw shellEnv : String) (fs : FileOps)
    (varName value : String)
    (hsys : pyLower systemRaw = "darwin" ∨ pyLower systemRaw = "linux")
    (hfail : fs.touchErr = true ∨ fs.readErr = true ∨
      (fs.writeErr = true ∧ containsStr fs.content (exportLine varName value) = false)) :
    append_to_file fs (exportLine varName value) = (false, fs.content) ∧
      set_env_var_on_unix systemRaw shellEnv fs varName value =
        .ok (true, fs.content) := by
  have happ : append_to_file fs (exportLine varName value) = (false, fs.content) := by
    unfold append_to_file
    rcases hfail with h | h | ⟨h1, h2⟩
    · simp [h]
    · by_cases ht : fs.touchErr = true <;> simp [ht, h]
    · by_cases ht : fs.touchErr = true
      · simp [ht]
      · by_cases hrd : fs.readErr = true <;> simp [ht, hrd, h1, h2]
  refine ⟨happ, ?_⟩
  unfold set_env_var_on_unix get_shell_rc_file
  rcases hsys with h | h <;>
    by_cases hz : containsStr (pyLower shellEnv) "zsh" = true <;>
      simp [h, hz, happ]

/-- Witness for C2 (amended): a failing read on macOS leaves the file
unchanged, `append_to_file` reports `False`, and the variant still
returns `True`. -/
theorem append_io_failure_caught_witness :
    append_to_file ⟨false, true, false, "PATH=x\n"⟩
        (exportLine "ANTHROPIC_BASE_URL" "https://api.getunbound.ai") =
      (false, "PATH=x\n") ∧
      set_env_var_on_unix "Darwin" "/bin/zsh" ⟨false, true, false, "PATH=x\n"⟩
          "ANTHROPIC_BASE_URL" "https://api.getunbound.ai" =
        .ok (true, "PATH=x\n") :=
  append_io_failure_caught "Darwin" "/bin/zsh" ⟨false, true, false, "PATH=x\n"⟩
    "ANTHROPIC_BASE_URL" "https://api.getunbound.ai"
    (Or.inl (by decide)) (Or.inr (Or.inl (by decide)))

/-! ### Claim C3: the platform detector policy table -/

/-- Claim C3: for every operating-system identifier and shell value, the
platform detector follows the policy table — macOS yields `~/.zprofile`
for a zsh shell and `~/.bash_profile` otherwise, Linux yields `~/.zshrc`
for a zsh shell and `~/.bashrc` otherwise, Windows yields the sentinel,
and every other identifier raises the unsupported-platform error; every
returned path is one of the four POSIX paths. -/
theorem get_shell_rc_file_policy (systemRaw shellEnv : String) :
    (pyLower systemRaw = "darwin" →
      get_shell_rc_file systemRaw shellEnv =
        .path (if containsStr (pyLower shellEnv) "zsh" then "~/.zprofile"
          else "~/.bash_profile")) ∧
    (pyLower systemRaw = "linux" →
      get_shell_rc_file systemRaw shellEnv =
        .path (if containsStr (pyLower shellEnv) "zsh" then "~/.zshrc"
          else "~/.bashrc")) ∧
    (pyLower systemRaw = "windows" →
      get_shell_rc_file systemRaw shellEnv = .windowsSentinel) ∧
    (pyLower systemRaw ≠ "darwin" → pyLower systemRaw ≠ "linux" →
      pyLower systemRaw ≠ "windows" →
      get_shell_rc_file systemRaw shellEnv =
        .unsupported ("Unsupported operating system: " ++ pyLower systemRaw)) ∧
    (∀ p, get_shell_rc_file systemRaw shellEnv = .path p →
      p = "~/.zprofile" ∨ p = "~/.bash_profile" ∨ p = "~/.zshrc" ∨ p = "~/.bashrc") := by
  refine ⟨?_, ?_, ?_, ?_, ?_⟩
  · intro h
    by_cases hz : containsStr (pyLower shellEnv) "zsh" = true <;>
      simp [get_shell_rc_file, h, hz]
  · intro h
    have hd : pyLower systemRaw ≠ "darwin" := by
      rw [h]
      decide
    by_cases hz : containsStr (pyLower shellEnv) "zsh" = true <;>
      simp [get_shell_rc_file, h, hd, hz]
  · intro h
    have hd : pyLower systemRaw ≠ "darwin" := by
      rw [h]
      decide
    have hl : pyLower systemRaw ≠ "linux" := by
      rw [h]
      decide
    simp [get_shell_rc_file, h, hd, hl]
  · intro h1 h2 h3
    simp [get_shell_rc_file, h1, h2, h3]
  · intro p hp
    unfold get_shell_rc_file at hp
    split_ifs at hp <;> simp_all

/-- Witness for C3: macOS with a zsh shell selects `~/.zprofile`. -/
theorem get_shell_rc_file_policy_witness :
    get_shell_rc_file "Darwin" "/bin/zsh" = RCResult.path "~/.zprofile" := by
  have h := (get_shell_rc_file_policy "Darwin" "/bin/zsh").1 (by decide)
  rw [h]
  decide

/-! ### Claim C9: empty credential never reaches the network -/

/-- Claim C9: for the empty credential string the verifier returns
`False` immediately, performing no network request, whatever the network
would have answered. -/
theorem verify_empty_key_no_network (net : HTTPOutcome) :
    verify_api_key net "" = (false, 0) := by
  unfold verify_api_key
  simp

/-! ### Claim C1: acceptance policy on a 200 response -/

/-- Counterexample for C1 as stated: a 200 response whose decoded body
is the non-empty object holding a `"data"` field that is an empty
sequence makes the verifier return `False`, because the first branch of
the `if`/`elif` chain captures every truthy dict containing `"data"` and
the later any-non-empty-object branch is never reached. -/
theorem verify_nonempty_object_with_empty_data_rejected :
    verify_api_key (.success 200 (.obj [("data", .arr [])])) "k" = (false, 1) := by
  rfl

/-- Claim C1 (amended): for every non-empty credential, on a 200
response the verifier returns `True` exactly for these decoded bodies: a
non-empty object whose `"data"` field is a non-empty sequence, a
non-empty sequence, and a non-empty object with no `"data"` field; a
non-empty object whose `"data"` field is present but is an empty
sequence or not a sequence yields `False` (the field value decides the
result). -/
theorem verify_200_classification (key : String) (body : Json) (hk : key ≠ "") :
    (∀ v, body.truthy = true → body.isObj = true → body.getKey "data" = some v →
      verify_api_key (.success 200 body) key = (v.isArr && decide (0 < v.arrLen), 1)) ∧
    (body.truthy = true → body.isArr = true →
      verify_api_key (.success 200 body) key = (true, 1)) ∧
    (body.truthy = true → body.isObj = true → body.hasKey "data" = false →
      verify_api_key (.success 200 body) key = (true, 1)) := by
  have base : verify_api_key (.success 200 body) key = (classify200 body, 1) := by
    unfold verify_api_key
    simp [hk]
  refine ⟨?_, ?_, ?_⟩
  · intro v h1 h2 h3
    have hhk : body.hasKey "data" = true := by
      unfold Json.hasKey
      rw [h3]
      rfl
    rw [base]
    unfold classify200
    simp [h1, h2, hhk, h3]
  · intro h1 h2
    cases body with
    | arr es =>
      rw [base]
      have hlen : 0 < es.length := by
        cases es with
        | nil => simp [Json.truthy] at h1
        | cons e es2 => simp
      have hne : es ≠ [] := List.ne_nil_of_length_pos hlen
      unfold classify200
      simp [Json.truthy, Json.isObj, Json.isArr, Json.arrLen, h1, hlen, hne]
    | null => simp [Json.isArr] at h2
    | bool b => simp [Json.isArr] at h2
    | num n => simp [Json.isArr] at h2
    | str s => simp [Json.isArr] at h2
    | obj fs => simp [Json.isArr] at h2
  · intro h1 h2 h3
    rw [base]
    cases body with
    | obj fs =>
      have hne : fs ≠ [] := by
        simpa [Json.truthy] using h1
      unfold classify200
      simp [Json.truthy, Json.isObj, Json.isArr, h1, h3, hne]
    | null => simp [Json.isObj] at h2
    | bool b => simp [Json.isObj] at h2
    | num n => simp [Json.isObj] at h2
    | str s => simp [Json.isObj] at h2
    | arr es => simp [Json.isObj] at h2

/-- Witness for C1 (amended): a 200 response carrying a models listing
under `"data"` is accepted. -/
theorem verify_200_classification_witness :
    verify_api_key
        (.success 200 (.obj [("data", .arr [Json.str "model-1"])])) "k" = (true, 1) := by
  have h := (verify_200_classification "k" (.obj [("data", .arr [Json.str "model-1"])])
    (by decide)).1 (.arr [Json.str "model-1"]) rfl rfl rfl
  exact h

/-! ### Claim C6: declining the retry ends the flow without writes -/

/-- Claim C6: in every run in which credential verification fails and
the user answers no to the retry prompt, the flow ends without invoking
the persistence writer at all. -/
theorem flow_declined_no_writes (verifier : String → Bool)
    (persist : String → String → Bool) (stdin rest : List String)
    (h : keyLoop verifier stdin = .exitDeclined rest) :
    main verifier persist stdin = ⟨[], rest, false⟩ := by
  unfold main
  rw [h]

/-- Witness for C6: a failing verification followed by the answer "n"
produces a run with no writes. -/
theorem flow_declined_no_writes_witness :
    main (fun _ => false) (fun _ _ => true) ["abc123", "n"] = ⟨[], [], false⟩ :=
  flow_declined_no_writes (fun _ => false) (fun _ _ => true) ["abc123", "n"] []
    (by decide)

/-! ### Claim C7: a failed primary write is terminal -/

/-- Claim C7: in every run, if persisting the primary credential
variable fails, the flow stops there: the only writer invocation is the
failed `UNBOUND_API_KEY` one, and the routing-configuration prompt never
consumes any input. -/
theorem flow_primary_persist_failure_terminal (verifier : String → Bool)
    (persist : String → String → Bool) (stdin : List String) (key : String)
    (rest : List String)
    (hk : keyLoop verifier stdin = .gotKey key rest)
    (hp : persist "UNBOUND_API_KEY" key = false) :
    main verifier persist stdin = ⟨[("UNBOUND_API_KEY", key)], rest, false⟩ := by
  unfold main
  rw [hk]
  simp [hp]

/-- Witness for C7: with a persistence oracle that always fails, a
verified key is the only write and the remaining input stays
unconsumed. -/
theorem flow_primary_persist_failure_terminal_witness :
    main (fun _ => true) (fun _ _ => false) ["abc123", "n"] =
      ⟨[("UNBOUND_API_KEY", "abc123")], ["n"], false⟩ :=
  flow_primary_persist_failure_terminal (fun _ => true) (fun _ _ => false)
    ["abc123", "n"] "abc123" ["n"] (by decide) rfl

/-! ### Claim C8: declining alternate routing persists key and base URL -/

/-- Claim C8: in every run in which verification succeeds, the primary
credential write succeeds, and the user declines the alternate routing
mode, exactly the primary credential variable and the base-URL variable
with value `https://api.getunbound.ai` are persisted, both successfully,
and no model-identifier routing variable is ever written. -/
theorem flow_direct_mode_writes (verifier : String → Bool)
    (persist : String → String → Bool) (stdin : List String) (key a : String)
    (rest : List String)
    (hk : keyLoop verifier stdin = .gotKey key (a :: rest))
    (hp : persist "UNBOUND_API_KEY" key = true)
    (hv : promptYesNo a false = false)
    (hb : persist "ANTHROPIC_BASE_URL" BASE_URL = true) :
    (main verifier persist stdin).writes =
        [("UNBOUND_API_KEY", key), ("ANTHROPIC_BASE_URL", BASE_URL)] ∧
      (∀ w ∈ (main verifier persist stdin).writes, persist w.1 w.2 = true) ∧
      (∀ value, ("ANTHROPIC_MODEL", value) ∉ (main verifier persist stdin).writes ∧
        ("ANTHROPIC_SMALL_FAST_MODEL", value) ∉ (main verifier persist stdin).writes) := by
  have hmain : main verifier persist stdin =
      ⟨[("UNBOUND_API_KEY", key), ("ANTHROPIC_BASE_URL", BASE_URL)], rest, false⟩ := by
    unfold main
    rw [hk]
    simp [hp, prompt_vertex_configuration, hv]
  refine ⟨by rw [hmain], ?_, ?_⟩
  · intro w hw
    rw [hmain] at hw
    simp only [List.mem_cons, List.mem_singleton, List.not_mem_nil, or_false] at hw
    rcases hw with h | h <;> rw [h]
    · exact hp
    · exact hb
  · intro value
    rw [hmain]
    constructor <;> simp

/-- Witness for C8: key accepted, routing declined, so the run writes
the credential and the base URL only. -/
theorem flow_direct_mode_writes_witness :
    (main (fun _ => true) (fun _ _ => true) ["abc123", "n"]).writes =
      [("UNBOUND_API_KEY", "abc123"), ("ANTHROPIC_BASE_URL", BASE_URL)] :=
  (flow_direct_mode_writes (fun _ => true) (fun _ _ => true) ["abc123", "n"]
    "abc123" "n" [] (by decide) rfl (by decide) rfl).1

end Setup
